import Mathlib

/-!
Verification of the nxdumptool NCA decoding core against its specification.

The on-disk structures are taken from the `nca.h` header in the repository
(packed C structs, so each field's byte offset is the sum of the sizes of the
fields before it).  Operations whose C implementations are not part of the
source tree (only declared in `nca.h`) are modelled from the specification;
their doc comments say so explicitly.
-/

namespace Nxdumptool

/-- A packed C struct, as the ordered list of its (field name, byte size)
pairs.  `PACKED` structs have no padding, so offsets are prefix sums. -/
abbrev CStruct := List (String × Nat)

/-- Total byte size of a packed struct. -/
def sizeOfStruct (fs : CStruct) : Nat := (fs.map Prod.snd).sum

/-- Byte offset of the first field with the given name in a packed struct
(total size if the name does not occur). -/
def fieldOffset : CStruct → String → Nat
  | [], _ => 0
  | (n, s) :: rest, name => if n = name then 0 else s + fieldOffset rest name

/-! ## Constants from `nca.h` -/

def NCA3_MAGIC : Nat := 0x4E434133
def NCA2_MAGIC : Nat := 0x4E434132
def NCA_HEADER_LENGTH : Nat := 0x400
def NCA_SECTION_HEADER_LENGTH : Nat := 0x200
def NCA_SECTION_HEADER_CNT : Nat := 4
def NCA_FULL_HEADER_LENGTH : Nat :=
  NCA_HEADER_LENGTH + NCA_SECTION_HEADER_LENGTH * NCA_SECTION_HEADER_CNT
def PFS0_MAGIC : Nat := 0x50465330
def ROMFS_ENTRY_EMPTY : Nat := 0xFFFFFFFF
def ROMFS_NONAME_DIRENTRY_SIZE : Nat := 0x18
def ROMFS_NONAME_FILEENTRY_SIZE : Nat := 0x20
def ETICKET_TITLEKEY_OFFSET : Nat := 0x180
def ETICKET_RIGHTSID_OFFSET : Nat := 0x2A0

/-! ## Packed struct layouts from `nca.h` -/

/-- `pfs0_header` from `nca.h`. -/
def pfs0_header : CStruct :=
  [("magic", 4), ("file_cnt", 4), ("str_table_size", 4), ("reserved", 4)]

/-- `pfs0_entry_table` from `nca.h`. -/
def pfs0_entry_table : CStruct :=
  [("file_offset", 8), ("file_size", 8), ("filename_offset", 4), ("reserved", 4)]

/-- `nca_section_entry_t` from `nca.h`. -/
def nca_section_entry_t : CStruct :=
  [("media_start_offset", 4), ("media_end_offset", 4), ("_0x8", 8)]

/-- `pfs0_superblock_t` from `nca.h`. -/
def pfs0_superblock_t : CStruct :=
  [("master_hash", 0x20), ("block_size", 4), ("always_2", 4),
   ("hash_table_offset", 8), ("hash_table_size", 8),
   ("pfs0_offset", 8), ("pfs0_size", 8), ("_0x48", 0xF0)]

/-- `ivfc_level_hdr_t` from `nca.h`. -/
def ivfc_level_hdr_t : CStruct :=
  [("logical_offset", 8), ("hash_data_size", 8), ("block_size", 4), ("reserved", 4)]

/-- `ivfc_hdr_t` from `nca.h`. -/
def ivfc_hdr_t : CStruct :=
  [("magic", 4), ("id", 4), ("master_hash_size", 4), ("num_levels", 4),
   ("level_headers", 6 * sizeOfStruct ivfc_level_hdr_t),
   ("_0xA0", 0x20), ("master_hash", 0x20)]

/-- `romfs_superblock_t` from `nca.h`. -/
def romfs_superblock_t : CStruct :=
  [("ivfc_header", sizeOfStruct ivfc_hdr_t), ("_0xE0", 0x58)]

/-- `bktr_header_t` from `nca.h`. -/
def bktr_header_t : CStruct :=
  [("offset", 8), ("size", 8), ("magic", 4), ("_0x14", 4),
   ("num_entries", 4), ("_0x1C", 4)]

/-- `bktr_superblock_t` from `nca.h`. -/
def bktr_superblock_t : CStruct :=
  [("ivfc_header", sizeOfStruct ivfc_hdr_t), ("_0xE0", 0x18),
   ("relocation_header", sizeOfStruct bktr_header_t),
   ("subsection_header", sizeOfStruct bktr_header_t)]

/-- Size of the anonymous superblock union inside `nca_fs_header_t`
(the size of a C union is the maximum of its members' sizes). -/
def nca_fs_superblock_union_size : Nat :=
  max (sizeOfStruct pfs0_superblock_t)
    (max (sizeOfStruct romfs_superblock_t) (sizeOfStruct bktr_superblock_t))

/-- `nca_fs_header_t` from `nca.h`.  The `section_ctr` union overlays
`u8 section_ctr[8]` with `{u32 section_ctr_low; u32 section_ctr_high}`. -/
def nca_fs_header_t : CStruct :=
  [("_0x0", 1), ("_0x1", 1), ("partition_type", 1), ("fs_type", 1),
   ("crypt_type", 1), ("_0x5", 3),
   ("superblock", nca_fs_superblock_union_size),
   ("section_ctr", 8), ("_0x148", 0xB8)]

/-- `nca_header_t` from `nca.h`. -/
def nca_header_t : CStruct :=
  [("fixed_key_sig", 0x100), ("npdm_key_sig", 0x100), ("magic", 4),
   ("distribution", 1), ("content_type", 1), ("crypto_type", 1), ("kaek_ind", 1),
   ("nca_size", 8), ("title_id", 8), ("_0x218", 4), ("sdk_version", 4),
   ("crypto_type2", 1), ("_0x221", 0xF), ("rights_id", 0x10),
   ("section_entries", 4 * sizeOfStruct nca_section_entry_t),
   ("section_hashes", 4 * 0x20), ("nca_keys", 4 * 0x10), ("_0x340", 0xC0),
   ("fs_headers", 4 * sizeOfStruct nca_fs_header_t)]

/-- `rsa2048_sha256_ticket` from `nca.h`. -/
def rsa2048_sha256_ticket : CStruct :=
  [("sig_type", 4), ("signature", 0x100), ("padding", 0x3C), ("sig_issuer", 0x40),
   ("titlekey_block", 0x100), ("unk1", 1), ("titlekey_type", 1), ("unk2", 3),
   ("master_key_rev", 1), ("unk3", 0xA), ("ticket_id", 8), ("device_id", 8),
   ("rights_id", 0x10), ("account_id", 4), ("unk4", 0xC)]

example : sizeOfStruct nca_fs_header_t = 0x200 := by decide
example : sizeOfStruct nca_header_t = 0xC00 := by decide
example : fieldOffset rsa2048_sha256_ticket "titlekey_type" = 0x281 := by decide
example : fieldOffset nca_header_t "fs_headers" = 0x400 := by decide
example : sizeOfStruct rsa2048_sha256_ticket = 0x2C0 := by decide

/-! ## AES-128-CTR section crypto

The AES block cipher itself is an external crypto primitive; it enters the
model as a function `aes : Nat → List Nat` mapping a 128-bit counter value to
the 16 keystream bytes obtained by encrypting that counter block.  Bytes are
`Nat` values; CTR mode XORs each data byte with a keystream byte. -/

/-- The 128-bit big-endian AES-CTR counter as a natural number: the upper
64 bits are the pair `(hi, lo)` (each a u32, `hi` in the more significant
half), the lower 64 bits are the block index `blk`. -/
def ctrCounter (hi lo blk : Nat) : Nat :=
  ((hi % 0x100000000) * 0x100000000 + lo % 0x100000000) * 0x10000000000000000 +
    blk % 0x10000000000000000

/-- Keystream byte for the data byte at absolute section offset `absOff`:
byte `absOff % 0x10` of the AES encryption of the counter whose block index
is `absOff / 0x10`. -/
def ksByte (aes : Nat → List Nat) (hi lo absOff : Nat) : Nat :=
  (aes (ctrCounter hi lo (absOff / 0x10))).getD (absOff % 0x10) 0

/-- CTR-mode XOR of a byte buffer whose first byte sits at absolute section
offset `start`.  Encryption and decryption are the same operation. -/
def ctrCryptBytes (aes : Nat → List Nat) (hi lo : Nat) : Nat → List Nat → List Nat
  | _, [] => []
  | start, b :: rest =>
      Nat.xor b (ksByte aes hi lo start) :: ctrCryptBytes aes hi lo (start + 1) rest

/-- The `len` raw bytes of a byte source starting at offset `off`. -/
def readBytes (raw : Nat → Nat) : Nat → Nat → List Nat
  | _, 0 => []
  | off, len + 1 => raw off :: readBytes raw (off + 1) len

/-- Modelled from the spec: `processNcaCtrSectionBlock` (declared in `nca.h`,
implementation not in the source tree).  Per spec §4.1/§4.3, a CTR read at
byte offset `offset` within the section is aligned down to 0x10, whole
0x10-byte blocks covering the request are read and XORed with the keystream
(initial counter block index = aligned offset / 0x10), and the decrypted
prefix before the caller-requested start is discarded, as is any tail beyond
`bufSize` bytes.  `raw` is the on-disk section byte source. -/
def processNcaCtrSectionBlock (aes : Nat → List Nat) (hi lo : Nat) (raw : Nat → Nat)
    (offset bufSize : Nat) : List Nat :=
  let blockStart := 0x10 * (offset / 0x10)
  let diff := offset - blockStart
  let alignedSize := 0x10 * ((diff + bufSize + 0xF) / 0x10)
  ((ctrCryptBytes aes hi lo blockStart (readBytes raw blockStart alignedSize)).drop diff).take bufSize

/-! ## BKTR overlay -/

/-- `bktr_relocation_entry_t` from `nca.h`, as a record. -/
structure BktrRelocationEntry where
  virt_offset : Nat
  phys_offset : Nat
  is_patch : Nat
deriving DecidableEq, Repr

/-- `bktr_subsection_entry_t` from `nca.h`, as a record. -/
structure BktrSubsectionEntry where
  offset : Nat
  _0x8 : Nat
  ctr_val : Nat
deriving DecidableEq, Repr

/-- Modelled from the spec (§4.7): the bucket-tree search for the entry
covering offset `v`.  Entries are sorted ascending by their key and entry `R`
covers `[R.key, next.key)`, so the covering entry is the last one whose key
is `≤ v`. -/
def findCovering {α : Type} (key : α → Nat) (entries : List α) (v : Nat) : Option α :=
  (entries.filter (fun e => key e ≤ v)).getLast?

/-- The BKTR overlay state consulted by a read: the patch section's offset
inside the NCA, the high u32 of its `section_ctr`, and the parsed relocation
and subsection entry lists. -/
structure BktrCtx where
  section_offset : Nat
  section_ctr_high : Nat
  relocation_entries : List BktrRelocationEntry
  subsection_entries : List BktrSubsectionEntry

/-- Modelled from the spec: `readBktrSectionBlock` (declared in `nca.h`,
implementation not in the source tree).  Per spec §4.7: find the relocation
entry `R` covering `virtOff`; translate to `phys`; if `R.is_patch = 0`
delegate to the base RomFS reader, otherwise find the subsection entry `S`
covering `phys` and decrypt the patch bytes at `phys` with the AES-CTR
counter whose high 64 bits are `(section_ctr_high, S.ctr_val)` and whose low
64 bits are `(section_offset + phys) / 0x10`.  `baseRead` is the base RomFS
section reader and `patchRaw` the patch section's on-disk byte source. -/
def readBktrSectionBlock (aes : Nat → List Nat) (baseRead : Nat → Nat → List Nat)
    (patchRaw : Nat → Nat) (ctx : BktrCtx) (virtOff len : Nat) : Option (List Nat) :=
  match findCovering (fun e => e.virt_offset) ctx.relocation_entries virtOff with
  | none => none
  | some R =>
      let phys := R.phys_offset + (virtOff - R.virt_offset)
      if R.is_patch = 0 then some (baseRead phys len)
      else
        match findCovering (fun e => e.offset) ctx.subsection_entries phys with
        | none => none
        | some S =>
            some (ctrCryptBytes aes ctx.section_ctr_high S.ctr_val
              (ctx.section_offset + phys) (readBytes patchRaw phys len))

/-! ## NCA header decoding -/

/-- Error kinds of the header decoder (spec §4.2/§7). -/
inductive NcaDecodeError where
  | MalformedHeader
  | UnsupportedArchive
  | IntegrityFailure (sectionIdx : Nat)
  | MissingKey
deriving DecidableEq, Repr

/-- An `nca_section_entry_t` value (media offsets in 0x200-byte units). -/
structure NcaSectionEntry where
  media_start_offset : Nat
  media_end_offset : Nat
deriving DecidableEq, Repr

/-- The fields of a decrypted `nca_header_t` consulted by the integrity
check: the magic, the four section entries, the four stored section hashes
and the four raw 0x200-byte FS headers (as byte lists). -/
structure NcaHeaderView where
  magic : Nat
  section_entries : List NcaSectionEntry
  section_hashes : List (List Nat)
  fs_headers : List (List Nat)
deriving DecidableEq, Repr

/-- A section is present unless both of its media offsets are zero. -/
def sectionPresent (hdr : NcaHeaderView) (i : Nat) : Bool :=
  let e := hdr.section_entries.getD i ⟨0, 0⟩
  !(e.media_start_offset == 0 && e.media_end_offset == 0)

/-- The hash check for section `i`: skipped (vacuously true) for non-present
sections, otherwise the hash of the 0x200-byte FS header must equal the
stored `section_hashes[i]`.  `sha` is the external SHA-256 primitive. -/
def sectionHashOk (sha : List Nat → List Nat) (hdr : NcaHeaderView) (i : Nat) : Bool :=
  !(sectionPresent hdr i) || (sha (hdr.fs_headers.getD i []) == hdr.section_hashes.getD i [])

/-- Index of the first of the four sections whose hash check fails. -/
def firstHashFailure (sha : List Nat → List Nat) (hdr : NcaHeaderView) : Option Nat :=
  (List.range 4).find? (fun i => !(sectionHashOk sha hdr i))

/-- Modelled from the spec: `decryptNcaHeader` (declared in `nca.h`,
implementation not in the source tree).  The input is the XTS-decrypted
0xC00-byte header, already split into a view (AES-XTS is an external crypto
primitive, so the model starts after spec §4.2 step 1).  Step 2 validates
the magic, failing with `UnsupportedArchive`; step 3 checks each present
section's FS-header hash, failing with `IntegrityFailure` for the first
mismatching section; the key-material steps 4-6 are summarized by the
`keyOk` flag (failure surfaces as `MissingKey`). -/
def decryptNcaHeader (sha : List Nat → List Nat) (keyOk : Bool) (hdr : NcaHeaderView) :
    Except NcaDecodeError NcaHeaderView :=
  if hdr.magic ≠ NCA2_MAGIC ∧ hdr.magic ≠ NCA3_MAGIC then
    .error .UnsupportedArchive
  else
    match firstHashFailure sha hdr with
    | some i => .error (.IntegrityFailure i)
    | none => if keyOk then .ok hdr else .error .MissingKey

/-! ## PFS0 region layout -/

/-- Modelled from the spec (§4.4/§6.3): the PFS0 file table immediately
follows the 0x10-byte header. -/
def pfs0EntryTableOffset : Nat := sizeOfStruct pfs0_header

/-- Modelled from the spec: the string table follows the file table, whose
entries are each `sizeOfStruct pfs0_entry_table` bytes. -/
def pfs0StringTableOffset (file_cnt : Nat) : Nat :=
  pfs0EntryTableOffset + file_cnt * sizeOfStruct pfs0_entry_table

/-- Modelled from the spec: the data region follows the string table. -/
def pfs0DataOffset (file_cnt str_table_size : Nat) : Nat :=
  pfs0StringTableOffset file_cnt + str_table_size

/-! ## RomFS entries

`nca.h` only fixes the sizes of the name-less entry heads
(`ROMFS_NONAME_DIRENTRY_SIZE` / `ROMFS_NONAME_FILEENTRY_SIZE`) and the chain
sentinel; the field-by-field layout (`romfs_dir` / `romfs_file` of libnx) is
not in the source tree and is modelled from the spec. -/

/-- Modelled from the spec (§4.6): the RomFS directory entry head (before
the 4-byte-aligned name). -/
def romfs_dir_entry : CStruct :=
  [("parent_offset", 4), ("sibling_offset", 4), ("child_dir_offset", 4),
   ("child_file_offset", 4), ("hash_sibling", 4), ("name_length", 4)]

/-- Modelled from the spec (§4.6): the RomFS file entry head (before the
4-byte-aligned name); compared with a directory entry it carries
`data_offset`/`data_size` u64 fields and `hash_sibling` before
`name_length`. -/
def romfs_file_entry : CStruct :=
  [("parent_offset", 4), ("sibling_offset", 4), ("data_offset", 8),
   ("data_size", 8), ("hash_sibling", 4), ("name_length", 4)]

/-- A RomFS entry name is padded to a 4-byte boundary. -/
def romfsAlign4 (n : Nat) : Nat := 4 * ((n + 3) / 4)

/-- Modelled from the spec: walking a sibling/child chain by repeatedly
following `next`, stopping at the `0xFFFFFFFF` sentinel (fuel-bounded). -/
def romfsWalkChain (next : Nat → Nat) : Nat → Nat → List Nat
  | 0, _ => []
  | fuel + 1, off =>
      if off = ROMFS_ENTRY_EMPTY then []
      else off :: romfsWalkChain next fuel (next off)

/-! ## `programInfoInitializeContext` (`source/program_info.c`)

The NCA/PFS/NPDM/NSO collaborators of `programInfoInitializeContext` live in
other translation units; their observable answers enter the model as an
environment of oracles, while the control flow of the function itself is
embedded line by line from `program_info.c`. -/

/-- `NcmContentType_Program` (libnx). -/
def NcmContentType_Program : Nat := 1

/-- `NcmStorageId_GameCard` (libnx). -/
def NcmStorageId_GameCard : Nat := 2

/-- `NcaContentType_Program` (`nca.h` of the rewrite). -/
def NcaContentType_Program : Nat := 0

/-- `NSO_HEADER_MAGIC`: "NSO0" as a big-endian u32. -/
def NSO_HEADER_MAGIC : Nat := 0x4E534F30

/-- `__builtin_bswap32`. -/
def bswap32 (x : Nat) : Nat :=
  let b0 := x % 0x100
  let b1 := x / 0x100 % 0x100
  let b2 := x / 0x10000 % 0x100
  let b3 := x / 0x1000000 % 0x100
  b0 * 0x1000000 + b1 * 0x10000 + b2 * 0x100 + b3

/-- The fields of an `NcaContext` read by the parameter validation of
`programInfoInitializeContext`.  Pointer fields are modelled by whether they
are non-NULL. -/
structure NcaContextView where
  content_id_str_len : Nat
  content_type : Nat
  content_size : Nat
  storage_id : Nat
  ncm_storage : Bool
  gamecard_offset : Nat
  header_content_type : Nat
deriving DecidableEq, Repr

/-- The parameter validation at the top of `programInfoInitializeContext`
(negation of the early-return condition; the `out`/`nca_ctx` NULL checks are
handled by the `Option` wrapping of the model's arguments). -/
def programInfoValidParams (nca : NcaContextView) : Prop :=
  nca.content_id_str_len ≠ 0 ∧
  nca.content_type = NcmContentType_Program ∧
  NCA_FULL_HEADER_LENGTH ≤ nca.content_size ∧
  (nca.storage_id = NcmStorageId_GameCard ∨ nca.ncm_storage = true) ∧
  (nca.storage_id ≠ NcmStorageId_GameCard ∨ nca.gamecard_offset ≠ 0) ∧
  nca.header_content_type = NcaContentType_Program

instance (nca : NcaContextView) : Decidable (programInfoValidParams nca) := by
  unfold programInfoValidParams; infer_instance

/-- What the ExeFS loop observes about PFS entry `i`: whether
`pfsGetEntryByIndex`/`pfsGetEntryName` return non-NULL, whether the name is
`"main.npdm"` (the `strncmp` filter), whether `pfsReadEntryData` succeeds,
and the little-endian u32 it reads. -/
structure PfsEntryView where
  entry_ok : Bool
  name_is_main_npdm : Bool
  read_ok : Bool
  magic : Nat
deriving DecidableEq, Repr

/-- The Partition FS context produced by `pfsInitializeContext`, as observed
by `programInfoInitializeContext`. -/
structure PfsCtxView where
  is_exefs : Bool
  entry_count : Nat
  entry : Nat → PfsEntryView

/-- Oracle answers of the external collaborators consulted during one call
of `programInfoInitializeContext`: the PFS context (`none` when
`pfsInitializeContext` fails), the `npdmInitializeContext` outcome, and the
per-step `realloc` / `nsoInitializeContext` outcomes. -/
structure ProgramInfoEnv where
  pfs_init : Option PfsCtxView
  npdm_ok : Bool
  realloc_ok : Nat → Bool
  nso_init_ok : Nat → Bool

/-- The observable state of a `ProgramInfoContext`. -/
structure ProgramInfoContextView where
  nca_ctx : Option NcaContextView
  pfs_init_done : Bool
  npdm_init_done : Bool
  nso_count : Nat
  authoring_tool_xml : Bool
deriving DecidableEq, Repr

/-- Modelled from the spec (§9: context teardown): `programInfoFreeContext`
(declared in `program_info.h`, not in the source tree) releases every
sub-context and clears the structure to zero. -/
def programInfoFreeContext : ProgramInfoContextView :=
  { nca_ctx := none, pfs_init_done := false, npdm_init_done := false,
    nso_count := 0, authoring_tool_xml := false }

/-- The NSO loop of `programInfoInitializeContext` (`program_info.c`
lines 87-116), iterating over the `remaining` PFS entries starting at
index `i` with current NSO count `cnt`: entry `i` is skipped unless it
exists, is not `main.npdm`, its first u32 reads successfully and byte-swaps
to `NSO_HEADER_MAGIC`; otherwise the context buffer is reallocated and an
NSO context initialized, either step failing the whole call.  Returns the
final `nso_count`. -/
def programInfoNsoLoop (env : ProgramInfoEnv) (pfs : PfsCtxView) :
    Nat → Nat → Nat → Except Unit Nat
  | 0, _, cnt => .ok cnt
  | remaining + 1, i, cnt =>
    let v := pfs.entry i
    if !v.entry_ok || v.name_is_main_npdm || !v.read_ok ||
        bswap32 v.magic ≠ NSO_HEADER_MAGIC then
      programInfoNsoLoop env pfs remaining (i + 1) cnt
    else if !env.realloc_ok cnt then .error ()
    else if !env.nso_init_ok i then .error ()
    else programInfoNsoLoop env pfs remaining (i + 1) (cnt + 1)

/-- `programInfoInitializeContext` (`program_info.c` lines 40-134).  The
pair returned is (C return value, final state of `*out`); `out = none`
models a NULL `out` pointer.  The early parameter-validation return happens
before `programInfoFreeContext(out)` is reached, so on that path the prior
contents of `out` survive; every later failure path runs
`programInfoFreeContext(out)` at `end:`. -/
def programInfoInitializeContext (env : ProgramInfoEnv)
    (out : Option ProgramInfoContextView) (nca : Option NcaContextView) :
    Bool × Option ProgramInfoContextView :=
  match out, nca with
  | none, _ => (false, none)
  | some o, none => (false, some o)
  | some o, some n =>
    if ¬ programInfoValidParams n then (false, some o)
    else
      match env.pfs_init with
      | none => (false, some programInfoFreeContext)
      | some pfs =>
        if !pfs.is_exefs then (false, some programInfoFreeContext)
        else if pfs.entry_count = 0 then (false, some programInfoFreeContext)
        else if !env.npdm_ok then (false, some programInfoFreeContext)
        else
          match programInfoNsoLoop env pfs pfs.entry_count 0 0 with
          | .error _ => (false, some programInfoFreeContext)
          | .ok cnt =>
            if cnt = 0 then (false, some programInfoFreeContext)
            else
              (true, some { nca_ctx := some n, pfs_init_done := true,
                            npdm_init_done := true, nso_count := cnt,
                            authoring_tool_xml := false })

/-! ## Helper lemmas about the CTR model -/

lemma ctrCryptBytes_length (aes : Nat → List Nat) (hi lo : Nat) :
    ∀ (buf : List Nat) (start : Nat),
      (ctrCryptBytes aes hi lo start buf).length = buf.length := by
  intro buf
  induction buf with
  | nil => intro start; rfl
  | cons b rest ih => intro start; simp [ctrCryptBytes, ih]

lemma readBytes_length (raw : Nat → Nat) :
    ∀ (len off : Nat), (readBytes raw off len).length = len := by
  intro len
  induction len with
  | zero => intro off; rfl
  | succ n ih => intro off; simp [readBytes, ih]

lemma readBytes_getD (raw : Nat → Nat) :
    ∀ (len off k : Nat), k < len → (readBytes raw off len).getD k 0 = raw (off + k) := by
  intro len
  induction len with
  | zero => intro off k hk; omega
  | succ n ih =>
      intro off k hk
      cases k with
      | zero => simp [readBytes]
      | succ m =>
          have h := ih (off + 1) m (by omega)
          simpa [readBytes, Nat.add_assoc, Nat.add_comm, Nat.add_left_comm] using h

lemma ctrCryptBytes_getD (aes : Nat → List Nat) (hi lo : Nat) :
    ∀ (buf : List Nat) (start k : Nat), k < buf.length →
      (ctrCryptBytes aes hi lo start buf).getD k 0 =
        Nat.xor (buf.getD k 0) (ksByte aes hi lo (start + k)) := by
  intro buf
  induction buf with
  | nil => intro start k hk; simp at hk
  | cons b rest ih =>
      intro start k hk
      cases k with
      | zero => simp [ctrCryptBytes]
      | succ m =>
          have h := ih (start + 1) m (by simpa using Nat.lt_of_succ_lt_succ hk)
          simpa [ctrCryptBytes, Nat.add_assoc, Nat.add_comm, Nat.add_left_comm] using h

lemma getD_drop_take (X : List Nat) (d n k : Nat) (hk : k < n) :
    ((X.drop d).take n).getD k 0 = X.getD (d + k) 0 := by
  rw [List.getD_eq_getElem?_getD, List.getElem?_take_of_lt hk, List.getElem?_drop,
    ← List.getD_eq_getElem?_getD]

/-- Splitting the 128-bit counter back into its halves: the upper 64 bits
are `(hi, lo)` and the lower 64 bits are the block index. -/
lemma ctrCounter_split (hi lo blk : Nat) (hhi : hi < 0x100000000)
    (hlo : lo < 0x100000000) (hblk : blk < 0x10000000000000000) :
    ctrCounter hi lo blk / 0x10000000000000000 = hi * 0x100000000 + lo ∧
      ctrCounter hi lo blk % 0x10000000000000000 = blk := by
  unfold ctrCounter
  constructor <;> omega

/-- C2: every byte returned by a CTR-section read at byte offset `offset`
within the section is the raw byte XORed with the keystream of the 128-bit
big-endian counter whose upper 64 bits are the `(section_ctr_high,
section_ctr_low)` pair from the FS header and whose lower 64 bits are the
byte's offset divided by 0x10 — the read is aligned down to 0x10 and the
decrypted prefix is discarded, so byte `k` of the result is the decryption
of the byte at `offset + k`. -/
theorem ctr_section_read_counter (aes : Nat → List Nat) (hi lo : Nat) (raw : Nat → Nat)
    (offset bufSize k : Nat) (hk : k < bufSize) :
    (processNcaCtrSectionBlock aes hi lo raw offset bufSize).getD k 0 =
      Nat.xor (raw (offset + k))
        ((aes (ctrCounter hi lo ((offset + k) / 0x10))).getD ((offset + k) % 0x10) 0) ∧
    (hi < 0x100000000 → lo < 0x100000000 →
      ∀ blk, blk < 0x10000000000000000 →
        ctrCounter hi lo blk / 0x10000000000000000 = hi * 0x100000000 + lo ∧
          ctrCounter hi lo blk % 0x10000000000000000 = blk) := by
  constructor
  · unfold processNcaCtrSectionBlock
    have hdiff : offset - 0x10 * (offset / 0x10) + k <
        0x10 * ((offset - 0x10 * (offset / 0x10) + bufSize + 0xF) / 0x10) := by
      omega
    rw [getD_drop_take _ _ _ _ hk]
    rw [ctrCryptBytes_getD _ _ _ _ _ _
      (by rw [readBytes_length]; exact hdiff)]
    rw [readBytes_getD _ _ _ _ hdiff]
    have heq : 0x10 * (offset / 0x10) + (offset - 0x10 * (offset / 0x10) + k) =
        offset + k := by omega
    rw [heq, ksByte]
  · intro hhi hlo blk hblk
    exact ctrCounter_split hi lo blk hhi hlo hblk

/-- A concrete AES model for witnesses: each keystream block is 16 bytes
derived from the counter value. -/
def testAes : Nat → List Nat := fun c => (List.range 0x10).map (fun i => (c + i) % 0x100)

/-- A concrete on-disk byte source for witnesses. -/
def testRaw : Nat → Nat := fun i => (i * 7 + 3) % 0x100

/-- Witness for `ctr_section_read_counter` at a concrete unaligned read. -/
theorem ctr_section_read_counter_witness :
    2 < 5 ∧
    (processNcaCtrSectionBlock testAes 3 9 testRaw 0x17 5).getD 2 0 =
      Nat.xor (testRaw (0x17 + 2))
        ((testAes (ctrCounter 3 9 ((0x17 + 2) / 0x10))).getD ((0x17 + 2) % 0x10) 0) :=
  ⟨by decide, (ctr_section_read_counter testAes 3 9 testRaw 0x17 5 2 (by decide)).1⟩

lemma ctrCryptBytes_involutive (aes : Nat → List Nat) (hi lo : Nat) :
    ∀ (buf : List Nat) (start : Nat),
      ctrCryptBytes aes hi lo start (ctrCryptBytes aes hi lo start buf) = buf := by
  intro buf
  induction buf with
  | nil => intro start; rfl
  | cons b rest ih =>
      intro start
      simp [ctrCryptBytes, ih]
      exact Nat.xor_cancel_right _ _

/-- C9: for a 0x10-aligned byte range of a CTR section, decrypting through
the section-block operation and re-encrypting the result with the same
counter stream at the same offset reproduces the on-disk ciphertext
byte-for-byte. -/
theorem ctr_section_roundtrip (aes : Nat → List Nat) (hi lo : Nat) (raw : Nat → Nat)
    (offset n : Nat) (hoff : offset % 0x10 = 0) (hn : n % 0x10 = 0) :
    ctrCryptBytes aes hi lo offset (processNcaCtrSectionBlock aes hi lo raw offset n) =
      readBytes raw offset n := by
  have h1 : 0x10 * (offset / 0x10) = offset := by omega
  simp only [processNcaCtrSectionBlock, h1]
  rw [Nat.sub_self, List.drop_zero]
  have h4 : 0x10 * ((0 + n + 0xF) / 0x10) = n := by omega
  rw [h4]
  rw [List.take_of_length_le
    (by rw [ctrCryptBytes_length, readBytes_length])]
  exact ctrCryptBytes_involutive aes hi lo (readBytes raw offset n) offset

/-- Witness for `ctr_section_roundtrip` at a concrete aligned range. -/
theorem ctr_section_roundtrip_witness :
    0x20 % 0x10 = 0 ∧ 0x30 % 0x10 = 0 ∧
    ctrCryptBytes testAes 3 9 0x20 (processNcaCtrSectionBlock testAes 3 9 testRaw 0x20 0x30) =
      readBytes testRaw 0x20 0x30 :=
  ⟨by decide, by decide, ctr_section_roundtrip testAes 3 9 testRaw 0x20 0x30 (by decide) (by decide)⟩

/-- The patch-physical offset a relocation entry translates a virtual
offset to (spec §4.7 step 1). -/
def bktrPhys (R : BktrRelocationEntry) (virtOff : Nat) : Nat :=
  R.phys_offset + (virtOff - R.virt_offset)

/-- C1: when a BKTR read resolves to a relocation entry `R` with
`is_patch = 1`, translated to patch-physical offset `phys` covered by
subsection entry `S`, the patch bytes are decrypted with the AES-CTR
counter whose high 64 bits are the `(section_ctr_high, S.ctr_val)` pair and
whose low 64 bits are `(section_offset_in_nca + phys) / 0x10`: every byte
`k` of the result is the raw patch byte at `phys + k` XORed with the
keystream of exactly that counter (advanced with the byte position), and
the counter value splits back into those halves. -/
theorem bktr_patch_read_uses_subsection_counter (aes : Nat → List Nat)
    (baseRead : Nat → Nat → List Nat) (patchRaw : Nat → Nat) (ctx : BktrCtx)
    (virtOff len : Nat) (R : BktrRelocationEntry) (S : BktrSubsectionEntry)
    (hR : findCovering (fun e => e.virt_offset) ctx.relocation_entries virtOff = some R)
    (hpatch : R.is_patch = 1)
    (hS : findCovering (fun e => e.offset) ctx.subsection_entries (bktrPhys R virtOff) = some S) :
    readBktrSectionBlock aes baseRead patchRaw ctx virtOff len =
      some (ctrCryptBytes aes ctx.section_ctr_high S.ctr_val
        (ctx.section_offset + bktrPhys R virtOff)
        (readBytes patchRaw (bktrPhys R virtOff) len)) ∧
    (∀ k, k < len →
      (ctrCryptBytes aes ctx.section_ctr_high S.ctr_val
          (ctx.section_offset + bktrPhys R virtOff)
          (readBytes patchRaw (bktrPhys R virtOff) len)).getD k 0 =
        Nat.xor (patchRaw (bktrPhys R virtOff + k))
          ((aes (ctrCounter ctx.section_ctr_high S.ctr_val
              ((ctx.section_offset + bktrPhys R virtOff + k) / 0x10))).getD
            ((ctx.section_offset + bktrPhys R virtOff + k) % 0x10) 0)) ∧
    (ctx.section_ctr_high < 0x100000000 → S.ctr_val < 0x100000000 →
      (ctx.section_offset + bktrPhys R virtOff) / 0x10 < 0x10000000000000000 →
      ctrCounter ctx.section_ctr_high S.ctr_val
          ((ctx.section_offset + bktrPhys R virtOff) / 0x10) / 0x10000000000000000 =
        ctx.section_ctr_high * 0x100000000 + S.ctr_val ∧
      ctrCounter ctx.section_ctr_high S.ctr_val
          ((ctx.section_offset + bktrPhys R virtOff) / 0x10) % 0x10000000000000000 =
        (ctx.section_offset + bktrPhys R virtOff) / 0x10) := by
  refine ⟨?_, ?_, ?_⟩
  · unfold readBktrSectionBlock
    rw [hR]
    simp only [hpatch]
    rw [show bktrPhys R virtOff = R.phys_offset + (virtOff - R.virt_offset) from rfl] at hS
    simp [hS, bktrPhys]
  · intro k hk
    rw [ctrCryptBytes_getD _ _ _ _ _ _ (by rw [readBytes_length]; exact hk)]
    rw [readBytes_getD _ _ _ _ hk, ksByte]
  · intro hhi hctr hblk
    exact ctrCounter_split _ _ _ hhi hctr hblk

/-- A concrete BKTR overlay state for the witness, following the spec's
end-to-end scenario 5: virtual offset 0x4000 relocates to patch-physical
0x8000, covered by a subsection entry with `ctr_val = 0xDEADBEEF`. -/
def bktrTestCtx : BktrCtx :=
  { section_offset := 0x100
    section_ctr_high := 0xAABBCCDD
    relocation_entries := [⟨0, 0, 0⟩, ⟨0x4000, 0x8000, 1⟩]
    subsection_entries := [⟨0, 0, 1⟩, ⟨0x8000, 0, 0xDEADBEEF⟩] }

/-- A base RomFS reader for the witness (unused on the patch path). -/
def testBaseRead : Nat → Nat → List Nat := fun _ _ => []

/-- Witness for `bktr_patch_read_uses_subsection_counter` on
`bktrTestCtx`. -/
theorem bktr_patch_read_uses_subsection_counter_witness :
    findCovering (fun e => e.virt_offset) bktrTestCtx.relocation_entries 0x4000 =
      some ⟨0x4000, 0x8000, 1⟩ ∧
    (⟨0x4000, 0x8000, 1⟩ : BktrRelocationEntry).is_patch = 1 ∧
    findCovering (fun e => e.offset) bktrTestCtx.subsection_entries
      (bktrPhys ⟨0x4000, 0x8000, 1⟩ 0x4000) = some ⟨0x8000, 0, 0xDEADBEEF⟩ ∧
    readBktrSectionBlock testAes testBaseRead testRaw bktrTestCtx 0x4000 0x10 =
      some (ctrCryptBytes testAes bktrTestCtx.section_ctr_high 0xDEADBEEF
        (bktrTestCtx.section_offset + bktrPhys ⟨0x4000, 0x8000, 1⟩ 0x4000)
        (readBytes testRaw (bktrPhys ⟨0x4000, 0x8000, 1⟩ 0x4000) 0x10)) :=
  ⟨by decide, by decide, by decide,
    (bktr_patch_read_uses_subsection_counter testAes testBaseRead testRaw bktrTestCtx
      0x4000 0x10 ⟨0x4000, 0x8000, 1⟩ ⟨0x8000, 0, 0xDEADBEEF⟩
      (by decide) (by decide) (by decide)).1⟩

/-- C3: a header that decodes successfully has, for every present section
`i < 4`, `SHA-256(fs_headers[i]) = section_hashes[i]`; when the magic is
valid and section `i` is the first present section whose hash mismatches,
decoding fails with `IntegrityFailure i`; and non-present sections (both
media offsets zero) are skipped by the check. -/
theorem decrypt_header_validates_section_hashes (sha : List Nat → List Nat)
    (keyOk : Bool) (hdr out : NcaHeaderView) :
    (decryptNcaHeader sha keyOk hdr = .ok out →
      ∀ i, i < 4 → sectionPresent hdr i = true →
        sha (hdr.fs_headers.getD i []) = hdr.section_hashes.getD i []) ∧
    (∀ i, i < 4 → (hdr.magic = NCA2_MAGIC ∨ hdr.magic = NCA3_MAGIC) →
      sectionPresent hdr i = true →
      sha (hdr.fs_headers.getD i []) ≠ hdr.section_hashes.getD i [] →
      (∀ j, j < i → sectionHashOk sha hdr j = true) →
      decryptNcaHeader sha keyOk hdr = .error (.IntegrityFailure i)) ∧
    (∀ i, sectionPresent hdr i = false → sectionHashOk sha hdr i = true) := by
  refine ⟨?_, ?_, ?_⟩
  · intro h i hi hpres
    unfold decryptNcaHeader at h
    split at h
    · exact absurd h (by simp)
    · rcases hfail : firstHashFailure sha hdr with _ | j
      · have hall : ∀ x ∈ List.range 4, ¬ (!(sectionHashOk sha hdr x)) = true := by
          rw [← List.find?_eq_none]; exact hfail
        have hok := hall i (List.mem_range.mpr hi)
        simp only [Bool.not_eq_true', Bool.not_eq_false] at hok
        unfold sectionHashOk at hok
        rw [hpres] at hok
        simpa using hok
      · rw [hfail] at h
        exact absurd h (by simp)
  · intro i hi hmagic hpres hne hprev
    have hmag : ¬ (hdr.magic ≠ NCA2_MAGIC ∧ hdr.magic ≠ NCA3_MAGIC) := by
      rcases hmagic with h | h <;> simp [h]
    have hbad : sectionHashOk sha hdr i = false := by
      unfold sectionHashOk
      rw [hpres]
      simpa using hne
    have hfail : firstHashFailure sha hdr = some i := by
      unfold firstHashFailure
      rw [show List.range 4 = [0, 1, 2, 3] from rfl]
      interval_cases i
      · simp [List.find?, hbad]
      · have h0 := hprev 0 (by omega)
        simp [List.find?, h0, hbad]
      · have h0 := hprev 0 (by omega)
        have h1 := hprev 1 (by omega)
        simp [List.find?, h0, h1, hbad]
      · have h0 := hprev 0 (by omega)
        have h1 := hprev 1 (by omega)
        have h2 := hprev 2 (by omega)
        simp [List.find?, h0, h1, h2, hbad]
    unfold decryptNcaHeader
    rw [if_neg hmag, hfail]
  · intro i hnp
    unfold sectionHashOk
    rw [hnp]
    rfl

/-- A degenerate SHA-256 stand-in for witnesses (maps everything to `[]`). -/
def shaZ : List Nat → List Nat := fun _ => []

/-- A header view for the C3 witness: valid NCA3 magic, section 0 absent,
section 1 present with a stored hash that cannot match `shaZ`. -/
def hdrHashMismatch : NcaHeaderView :=
  { magic := NCA3_MAGIC
    section_entries := [⟨0, 0⟩, ⟨1, 2⟩, ⟨0, 0⟩, ⟨0, 0⟩]
    section_hashes := [[], [1], [], []]
    fs_headers := [[], [], [], []] }

/-- Witness for `decrypt_header_validates_section_hashes`: on
`hdrHashMismatch` the decoder fails with `IntegrityFailure 1`. -/
theorem decrypt_header_validates_section_hashes_witness :
    1 < 4 ∧ sectionPresent hdrHashMismatch 1 = true ∧
    decryptNcaHeader shaZ true hdrHashMismatch = .error (.IntegrityFailure 1) :=
  ⟨by decide, by decide,
    (decrypt_header_validates_section_hashes shaZ true hdrHashMismatch hdrHashMismatch).2.1
      1 (by decide) (Or.inr rfl) (by decide) (by decide)
      (fun j hj => by
        have hj0 : j = 0 := by omega
        subst hj0
        decide)⟩

/-- C6: after the XTS decryption of the 0xC00-byte header, decoding
succeeds only when the decrypted magic is NCA2 or NCA3, and any other magic
value fails with `UnsupportedArchive`. -/
theorem decrypt_header_magic_check (sha : List Nat → List Nat) (keyOk : Bool)
    (hdr : NcaHeaderView) :
    ((∃ out, decryptNcaHeader sha keyOk hdr = .ok out) →
      hdr.magic = NCA2_MAGIC ∨ hdr.magic = NCA3_MAGIC) ∧
    (hdr.magic ≠ NCA2_MAGIC → hdr.magic ≠ NCA3_MAGIC →
      decryptNcaHeader sha keyOk hdr = .error .UnsupportedArchive) := by
  constructor
  · rintro ⟨out, h⟩
    unfold decryptNcaHeader at h
    split at h
    · exact absurd h (by simp)
    · rename_i hcond
      by_contra hc
      push_neg at hc
      exact hcond ⟨hc.1, hc.2⟩
  · intro h2 h3
    unfold decryptNcaHeader
    rw [if_pos ⟨h2, h3⟩]

/-- A header view with an unsupported magic for the C6 witness. -/
def hdrBadMagic : NcaHeaderView :=
  { magic := 0x4E434131
    section_entries := [⟨0, 0⟩, ⟨0, 0⟩, ⟨0, 0⟩, ⟨0, 0⟩]
    section_hashes := [[], [], [], []]
    fs_headers := [[], [], [], []] }

/-- Witness for `decrypt_header_magic_check`: the "NCA1" magic is rejected
with `UnsupportedArchive`. -/
theorem decrypt_header_magic_check_witness :
    hdrBadMagic.magic ≠ NCA2_MAGIC ∧ hdrBadMagic.magic ≠ NCA3_MAGIC ∧
    decryptNcaHeader shaZ true hdrBadMagic = .error .UnsupportedArchive :=
  ⟨by decide, by decide,
    (decrypt_header_magic_check shaZ true hdrBadMagic).2 (by decide) (by decide)⟩

/-- C4 counterexample: in the `rsa2048_sha256_ticket` struct of `nca.h`,
`titlekey_type` does not sit at byte offset 0x261 nor `master_key_rev` at
0x263 — the fields after the 0x100-byte `titlekey_block` (which ends at
0x280) put them at 0x281 and 0x285. -/
theorem ticket_claimed_offsets_false :
    ¬ (fieldOffset rsa2048_sha256_ticket "titlekey_type" = 0x261 ∧
       fieldOffset rsa2048_sha256_ticket "master_key_rev" = 0x263) := by
  decide

/-- C4 (amended): in the 0x2C0-byte ticket structure, `titlekey_block`
(0x100 bytes) starts at offset 0x180 — matching `ETICKET_TITLEKEY_OFFSET` —
after the u32 `sig_type`, the 0x100-byte signature, padding up to 0x140 and
the 0x40-byte issuer; `titlekey_type` lies at offset 0x281,
`master_key_rev` at 0x285, and `rights_id` at 0x2A0 — matching
`ETICKET_RIGHTSID_OFFSET`. -/
theorem ticket_layout :
    sizeOfStruct rsa2048_sha256_ticket = 0x2C0 ∧
    fieldOffset rsa2048_sha256_ticket "sig_type" = 0 ∧
    fieldOffset rsa2048_sha256_ticket "signature" = 0x4 ∧
    fieldOffset rsa2048_sha256_ticket "sig_issuer" = 0x140 ∧
    fieldOffset rsa2048_sha256_ticket "titlekey_block" = 0x180 ∧
    fieldOffset rsa2048_sha256_ticket "titlekey_block" = ETICKET_TITLEKEY_OFFSET ∧
    fieldOffset rsa2048_sha256_ticket "titlekey_type" = 0x281 ∧
    fieldOffset rsa2048_sha256_ticket "master_key_rev" = 0x285 ∧
    fieldOffset rsa2048_sha256_ticket "rights_id" = 0x2A0 ∧
    fieldOffset rsa2048_sha256_ticket "rights_id" = ETICKET_RIGHTSID_OFFSET := by
  decide

/-- C5: the full NCA header is exactly 0xC00 bytes: a 0x400-byte main
header (`NCA_HEADER_LENGTH`) followed by four 0x200-byte FS section headers
(`fs_headers`, the final field, starting at offset 0x400 and reaching the
end of the struct), as `NCA_FULL_HEADER_LENGTH` is defined. -/
theorem nca_full_header_layout :
    sizeOfStruct nca_header_t = 0xC00 ∧
    sizeOfStruct nca_header_t = NCA_FULL_HEADER_LENGTH ∧
    NCA_HEADER_LENGTH = 0x400 ∧
    sizeOfStruct nca_fs_header_t = NCA_SECTION_HEADER_LENGTH ∧
    NCA_SECTION_HEADER_LENGTH = 0x200 ∧
    NCA_SECTION_HEADER_CNT = 4 ∧
    fieldOffset nca_header_t "fs_headers" = NCA_HEADER_LENGTH ∧
    nca_header_t.getLast? = some ("fs_headers", 4 * sizeOfStruct nca_fs_header_t) ∧
    fieldOffset nca_header_t "fs_headers" + 4 * sizeOfStruct nca_fs_header_t =
      sizeOfStruct nca_header_t := by
  decide

/-- C7: the PFS0 header is 0x10 bytes — magic "PFS0", u32 `file_cnt`, u32
`str_table_size`, u32 `reserved` — followed by the file table whose entries
are 0x18 bytes each (u64 `file_offset`, u64 `file_size`, u32
`filename_offset`, u32 `reserved`), then the string table and the data
region. -/
theorem pfs0_layout :
    PFS0_MAGIC = 0x50465330 ∧
    sizeOfStruct pfs0_header = 0x10 ∧
    fieldOffset pfs0_header "magic" = 0 ∧
    fieldOffset pfs0_header "file_cnt" = 0x4 ∧
    fieldOffset pfs0_header "str_table_size" = 0x8 ∧
    fieldOffset pfs0_header "reserved" = 0xC ∧
    sizeOfStruct pfs0_entry_table = 0x18 ∧
    fieldOffset pfs0_entry_table "file_offset" = 0 ∧
    fieldOffset pfs0_entry_table "file_size" = 0x8 ∧
    fieldOffset pfs0_entry_table "filename_offset" = 0x10 ∧
    fieldOffset pfs0_entry_table "reserved" = 0x14 ∧
    pfs0EntryTableOffset = 0x10 ∧
    (∀ file_cnt, pfs0StringTableOffset file_cnt = 0x10 + 0x18 * file_cnt) ∧
    (∀ file_cnt str_table_size,
      pfs0DataOffset file_cnt str_table_size = 0x10 + 0x18 * file_cnt + str_table_size) := by
  refine ⟨by decide, by decide, by decide, by decide, by decide, by decide, by decide,
    by decide, by decide, by decide, by decide, by decide, ?_, ?_⟩
  · intro file_cnt
    show 0x10 + file_cnt * sizeOfStruct pfs0_entry_table = 0x10 + 0x18 * file_cnt
    rw [show sizeOfStruct pfs0_entry_table = 0x18 from by decide, Nat.mul_comm]
  · intro file_cnt str_table_size
    show pfs0StringTableOffset file_cnt + str_table_size = 0x10 + 0x18 * file_cnt + str_table_size
    rw [show pfs0StringTableOffset file_cnt = 0x10 + 0x18 * file_cnt from by
      show 0x10 + file_cnt * sizeOfStruct pfs0_entry_table = 0x10 + 0x18 * file_cnt
      rw [show sizeOfStruct pfs0_entry_table = 0x18 from by decide, Nat.mul_comm]]

/-- C8: a RomFS directory entry is six u32 fields — `parent_offset`,
`sibling_offset`, `child_dir_offset`, `child_file_offset`, `hash_sibling`,
`name_length` — totalling 0x18 bytes before the 4-byte-aligned name
(matching `ROMFS_NONAME_DIRENTRY_SIZE`); a file entry totals 0x20 bytes
(matching `ROMFS_NONAME_FILEENTRY_SIZE`), carrying u64 `data_offset`, u64
`data_size` and u32 `hash_sibling` before `name_length`; the sentinel
0xFFFFFFFF (`ROMFS_ENTRY_EMPTY`) terminates sibling/child chains. -/
theorem romfs_entry_layout :
    sizeOfStruct romfs_dir_entry = ROMFS_NONAME_DIRENTRY_SIZE ∧
    ROMFS_NONAME_DIRENTRY_SIZE = 0x18 ∧
    (romfs_dir_entry.map Prod.fst) =
      ["parent_offset", "sibling_offset", "child_dir_offset", "child_file_offset",
       "hash_sibling", "name_length"] ∧
    (∀ f, f ∈ romfs_dir_entry → f.2 = 4) ∧
    sizeOfStruct romfs_file_entry = ROMFS_NONAME_FILEENTRY_SIZE ∧
    ROMFS_NONAME_FILEENTRY_SIZE = 0x20 ∧
    fieldOffset romfs_file_entry "data_offset" = 0x8 ∧
    fieldOffset romfs_file_entry "data_size" = 0x10 ∧
    fieldOffset romfs_file_entry "hash_sibling" = 0x18 ∧
    fieldOffset romfs_file_entry "name_length" = 0x1C ∧
    ROMFS_ENTRY_EMPTY = 0xFFFFFFFF ∧
    (∀ next fuel, romfsWalkChain next fuel ROMFS_ENTRY_EMPTY = []) ∧
    (∀ n, 4 ∣ romfsAlign4 n ∧ n ≤ romfsAlign4 n ∧ romfsAlign4 n < n + 4) := by
  refine ⟨by decide, by decide, by decide, by decide, by decide, by decide, by decide,
    by decide, by decide, by decide, by decide, ?_, ?_⟩
  · intro next fuel
    cases fuel with
    | zero => rfl
    | succ m => simp [romfsWalkChain]
  · intro n
    unfold romfsAlign4
    refine ⟨⟨(n + 3) / 4, rfl⟩, by omega, by omega⟩

/-- An environment whose `pfsInitializeContext` oracle fails. -/
def envPfsFail : ProgramInfoEnv :=
  { pfs_init := none, npdm_ok := false,
    realloc_ok := fun _ => true, nso_init_ok := fun _ => true }

/-- A previously initialized (non-clear) `ProgramInfoContext` state. -/
def dirtyCtx : ProgramInfoContextView :=
  { nca_ctx := none, pfs_init_done := true, npdm_init_done := true,
    nso_count := 5, authoring_tool_xml := true }

/-- An `NcaContext` that fails the parameter validation: its
`content_type` is not `NcmContentType_Program`. -/
def badNca : NcaContextView :=
  { content_id_str_len := 1, content_type := 0, content_size := 0xC00,
    storage_id := NcmStorageId_GameCard, ncm_storage := false,
    gamecard_offset := 1, header_content_type := NcaContentType_Program }

/-- C10 counterexample: a call with an invalid `nca_ctx` (wrong content
type) returns false through the early parameter-validation return, which
runs before `programInfoFreeContext(out)` is reached — the prior contents
of `out` survive unreset, so "returns false implies the output context has
been reset via programInfoFreeContext" fails. -/
theorem programInfo_init_no_free_on_invalid_params :
    (programInfoInitializeContext envPfsFail (some dirtyCtx) (some badNca)).1 = false ∧
    (programInfoInitializeContext envPfsFail (some dirtyCtx) (some badNca)).2 = some dirtyCtx ∧
    dirtyCtx ≠ programInfoFreeContext := by
  decide

/-- C10 (amended): for every call of `programInfoInitializeContext` whose
arguments pass the initial parameter validation, a false return leaves the
output context reset via `programInfoFreeContext` (no partially
initialized PFS, NPDM or NSO state remains observable), and a true return
yields a context holding at least one initialized NSO context
(`nso_count ≥ 1`) whose `nca_ctx` field points to the supplied NCA
context. -/
theorem programInfo_init_result (env : ProgramInfoEnv) (o : ProgramInfoContextView)
    (n : NcaContextView) :
    (programInfoValidParams n →
      (programInfoInitializeContext env (some o) (some n)).1 = false →
      (programInfoInitializeContext env (some o) (some n)).2 = some programInfoFreeContext) ∧
    (∀ r, programInfoInitializeContext env (some o) (some n) = (true, r) →
      ∃ c, r = some c ∧ 1 ≤ c.nso_count ∧ c.nca_ctx = some n) := by
  constructor
  · intro hv
    show (programInfoInitializeContext env (some o) (some n)).1 = false →
      (programInfoInitializeContext env (some o) (some n)).2 = some programInfoFreeContext
    simp only [programInfoInitializeContext]
    rw [if_neg (not_not_intro hv)]
    cases hpfs : env.pfs_init with
    | none => intro _; rfl
    | some pfs =>
      cases hex : pfs.is_exefs with
      | false => simp [hex]
      | true =>
        by_cases hec : pfs.entry_count = 0
        · simp [hex, hec]
        · cases hnp : env.npdm_ok with
          | false => simp [hex, hec, hnp]
          | true =>
            cases hloop : programInfoNsoLoop env pfs pfs.entry_count 0 0 with
            | error e => simp [hex, hec, hnp, hloop]
            | ok cnt =>
              by_cases hc : cnt = 0
              · simp [hex, hec, hnp, hloop, hc]
              · simp [hex, hec, hnp, hloop, hc]
  · intro r hr
    simp only [programInfoInitializeContext] at hr
    by_cases hv : programInfoValidParams n
    · rw [if_neg (not_not_intro hv)] at hr
      cases hpfs : env.pfs_init with
      | none => rw [hpfs] at hr; simp at hr
      | some pfs =>
        rw [hpfs] at hr
        cases hex : pfs.is_exefs with
        | false => simp [hex] at hr
        | true =>
          by_cases hec : pfs.entry_count = 0
          · simp [hex, hec] at hr
          · cases hnp : env.npdm_ok with
            | false => simp [hex, hec, hnp] at hr
            | true =>
              cases hloop : programInfoNsoLoop env pfs pfs.entry_count 0 0 with
              | error e => simp [hex, hec, hnp, hloop] at hr
              | ok cnt =>
                by_cases hc : cnt = 0
                · simp [hex, hec, hnp, hloop, hc] at hr
                · simp only [hex, hec, hnp, hloop, Bool.not_true, Bool.not_false,
                    Bool.false_eq_true, if_false, if_neg hc, Prod.mk.injEq, true_and] at hr
                  refine ⟨_, hr.symm, ?_, rfl⟩
                  show 1 ≤ cnt
                  omega
    · rw [if_pos hv] at hr
      simp at hr

/-- An environment driving one successful NSO initialization: one ExeFS
entry whose first little-endian u32 byte-swaps to `NSO_HEADER_MAGIC`. -/
def envOneNso : ProgramInfoEnv :=
  { pfs_init := some
      { is_exefs := true, entry_count := 1,
        entry := fun _ =>
          { entry_ok := true, name_is_main_npdm := false,
            read_ok := true, magic := 0x304F534E } },
    npdm_ok := true,
    realloc_ok := fun _ => true,
    nso_init_ok := fun _ => true }

/-- An `NcaContext` passing the parameter validation. -/
def goodNca : NcaContextView :=
  { content_id_str_len := 1, content_type := NcmContentType_Program,
    content_size := 0xC00, storage_id := NcmStorageId_GameCard,
    ncm_storage := false, gamecard_offset := 1,
    header_content_type := NcaContentType_Program }

/-- The context produced by the successful witness call. -/
def succCtx : ProgramInfoContextView :=
  { nca_ctx := some goodNca, pfs_init_done := true, npdm_init_done := true,
    nso_count := 1, authoring_tool_xml := false }

/-- Witness for `programInfo_init_result`: a failing call (PFS init fails)
leaves the freed context, and a succeeding call yields `nso_count = 1` with
`nca_ctx` pointing at the supplied context. -/
theorem programInfo_init_result_witness :
    (programInfoInitializeContext envPfsFail (some dirtyCtx) (some goodNca)).2 =
      some programInfoFreeContext ∧
    (∃ c, (some succCtx : Option ProgramInfoContextView) = some c ∧
      1 ≤ c.nso_count ∧ c.nca_ctx = some goodNca) :=
  ⟨(programInfo_init_result envPfsFail dirtyCtx goodNca).1 (by decide) (by decide),
    (programInfo_init_result envOneNso dirtyCtx goodNca).2 (some succCtx) (by decide)⟩

end Nxdumptool
